import Mathlib

set_option maxRecDepth 100000

/-!
Verification development for the GPL PubMed querying/filtering tool
(`gpl/core.py`).  The Python module uses `re` pattern matching over the
PubMed efetch markup; the embedding below models the exact patterns the
code applies with a small backtracking matcher (greedy / lazy operators,
optional groups, capture groups), specialised to the atom shapes those
patterns use.  Character classes are modelled over ASCII, matching the
explicit ASCII ranges the patterns spell out.
-/

namespace GPL

/-- Capture environment: group index paired with captured characters.
New captures are prepended, so lookup returns the most recent value. -/
abbrev Caps : Type := List (Nat × List Char)

/-- Result of a successful match attempt: remaining suffix and captures. -/
abbrev MatchRes : Type := List Char × Caps

/-- Continuation taking the remaining input and captures so far. -/
abbrev MatchK : Type := List Char → Caps → Option MatchRes

/-- One atom of a regular expression, covering exactly the constructs used
by the patterns in `_parse_xml_response`:
literals, greedy character-class repetitions (`[^>]*`, `\d+`, `[a-zA-Z]{2,}`,
`\d{4}`), the lazy dot-star under `re.DOTALL` (`.*?`), optional
non-capturing groups (`(?:...)?`), and capture groups. -/
inductive Atom where
  | lit (cs : List Char)
  | star (p : Char → Bool)
  | rep (p : Char → Bool) (lo : Nat)
  | repExact (p : Char → Bool) (n : Nat)
  | anyLazy
  | opt (sub : List Atom)
  | group (g : Nat) (sub : List Atom)

/-- Greedy repetition backtracking: try consuming `n` characters first,
then fewer, never fewer than `lo`. -/
def tryDropsDesc (k : MatchK) (s : List Char) (caps : Caps) (lo : Nat) : Nat → Option MatchRes
  | 0 => if lo = 0 then k s caps else none
  | n + 1 =>
      if n + 1 < lo then none
      else
        match k (s.drop (n + 1)) caps with
        | some r => some r
        | none => tryDropsDesc k s caps lo n

/-- Lazy dot-star (with DOTALL): try the continuation at the current
position first, then after consuming one more character. -/
def anyLazyLoop (k : MatchK) (caps : Caps) : List Char → Option MatchRes
  | [] => k [] caps
  | c :: rest =>
      match k (c :: rest) caps with
      | some r => some r
      | none => anyLazyLoop k caps rest

/-- Backtracking matcher in continuation style.  The fuel argument only
bounds the recursion depth through the atom list structure (the loops over
the input live in the structural helpers above), so any fuel larger than
the nesting size of the pattern is exact; all patterns in this file are
far below `reFuel`. -/
def matchA : Nat → List Atom → List Char → MatchK → Caps → Option MatchRes
  | 0, _, _, _, _ => none
  | _ + 1, [], s, k, caps => k s caps
  | fuel + 1, a :: as, s, k, caps =>
    match a with
    | .lit cs =>
        if cs.isPrefixOf s then matchA fuel as (s.drop cs.length) k caps else none
    | .star p =>
        tryDropsDesc (fun s' c' => matchA fuel as s' k c') s caps 0 (s.takeWhile p).length
    | .rep p lo =>
        tryDropsDesc (fun s' c' => matchA fuel as s' k c') s caps lo (s.takeWhile p).length
    | .repExact p n =>
        if n ≤ (s.takeWhile p).length then matchA fuel as (s.drop n) k caps else none
    | .anyLazy =>
        anyLazyLoop (fun s' c' => matchA fuel as s' k c') caps s
    | .opt sub =>
        match matchA fuel sub s (fun s' c' => matchA fuel as s' k c') caps with
        | some r => some r
        | none => matchA fuel as s k caps
    | .group g sub =>
        matchA fuel sub s
          (fun s' c' => matchA fuel as s' k ((g, s.take (s.length - s'.length)) :: c')) caps

/-- Recursion-depth bound for `matchA`; far above the nesting size of every
pattern in this file, so it never cuts a match short. -/
def reFuel : Nat := 100

/-- Attempt to match the pattern at the start of `s`. -/
def matchHere (atoms : List Atom) (s : List Char) : Option MatchRes :=
  matchA reFuel atoms s (fun s' caps => some (s', caps)) []

/-- Leftmost search, like `re.search`: returns the text before the match,
the text after the match, and the captures. -/
def findFirstAux (atoms : List Atom) : List Char → Option (List Char × List Char × Caps)
  | [] =>
      match matchHere atoms [] with
      | some (s', caps) => some ([], s', caps)
      | none => none
  | c :: rest =>
      match matchHere atoms (c :: rest) with
      | some (s', caps) => some ([], s', caps)
      | none =>
          match findFirstAux atoms rest with
          | some (pre, rem, caps) => some (c :: pre, rem, caps)
          | none => none

/-- Model of `re.search` returning just the captures of the leftmost match. -/
def reSearch (atoms : List Atom) (s : String) : Option Caps :=
  (findFirstAux atoms s.data).map (fun r => r.2.2)

/-- Captured characters of group `g` (empty when the group never matched,
mirroring `m.group(g) or ''` after the optional groups of the date
pattern). -/
def capGet (caps : Caps) (g : Nat) : List Char :=
  match caps.find? (fun p => p.1 == g) with
  | some p => p.2
  | none => []

/-- Model of the `re.findall` driver: repeatedly take the leftmost match and continue
after its end.  Every pattern in this file consumes at least one character
per match, so fuel `length + 1` never runs out. -/
def findAllAux (atoms : List Atom) : Nat → List Char → List Caps
  | 0, _ => []
  | fuel + 1, s =>
      match findFirstAux atoms s with
      | none => []
      | some (_, rem, caps) => caps :: findAllAux atoms fuel rem

/-- Model of `re.findall` for a pattern with a single capture group: the list of
group-1 captures of the non-overlapping leftmost matches. -/
def reFindall (atoms : List Atom) (s : String) : List String :=
  (findAllAux atoms (s.data.length + 1) s.data).map (fun caps => String.mk (capGet caps 1))

/-- Model of the `re.split` driver (the split pattern has no capture groups). -/
def reSplitAux (atoms : List Atom) : Nat → List Char → List (List Char)
  | 0, s => [s]
  | fuel + 1, s =>
      match findFirstAux atoms s with
      | none => [s]
      | some (pre, rem, _) => pre :: reSplitAux atoms fuel rem

/-- Model of `re.split`: the segments of `s` between non-overlapping matches. -/
def reSplit (atoms : List Atom) (s : String) : List String :=
  (reSplitAux atoms (s.data.length + 1) s.data).map String.mk

/-! The concrete patterns of `_parse_xml_response`. -/

def isNotGt (c : Char) : Bool := c != '>'

def isNotLt (c : Char) : Bool := c != '<'

/-- Pattern `r'<PMID[^>]*>(\d+)</PMID>'` -/
def pmidAtoms : List Atom :=
  [.lit "<PMID".data, .star isNotGt, .lit ">".data,
   .group 1 [.rep Char.isDigit 1], .lit "</PMID>".data]

/-- Pattern `r'<ArticleTitle>([^<]+)</ArticleTitle>'` -/
def titleAtoms : List Atom :=
  [.lit "<ArticleTitle>".data, .group 1 [.rep isNotLt 1], .lit "</ArticleTitle>".data]

/-- Pattern `r'<PubmedArticle[^>]*>'`, the record-start marker used by `re.split`. -/
def articleSplitAtoms : List Atom :=
  [.lit "<PubmedArticle".data, .star isNotGt, .lit ">".data]

/-- Pattern `r'<Author[^>]*>(.*?)</Author>'` with `re.DOTALL`. -/
def authorAtoms : List Atom :=
  [.lit "<Author".data, .star isNotGt, .lit ">".data,
   .group 1 [.anyLazy], .lit "</Author>".data]

/-- Pattern `r'<LastName>([^<]+)</LastName>'` -/
def lastNameAtoms : List Atom :=
  [.lit "<LastName>".data, .group 1 [.rep isNotLt 1], .lit "</LastName>".data]

/-- Pattern `r'<ForeName>([^<]*)</ForeName>'` -/
def foreNameAtoms : List Atom :=
  [.lit "<ForeName>".data, .group 1 [.star isNotLt], .lit "</ForeName>".data]

/-- Pattern `r'<AffiliationInfo>.*?<Affiliation>([^<]*)</Affiliation>'` with DOTALL. -/
def affiliationAtoms : List Atom :=
  [.lit "<AffiliationInfo>".data, .anyLazy, .lit "<Affiliation>".data,
   .group 1 [.star isNotLt], .lit "</Affiliation>".data]

/-- Pattern `r'<PubDate>.*?<Year>(\d{4})</Year>(?:.*?<Month>([^<]*)</Month>)?(?:.*?<Day>(\d+)</Day>)?.*?</PubDate>'`
with DOTALL. -/
def dateAtoms : List Atom :=
  [.lit "<PubDate>".data, .anyLazy, .lit "<Year>".data,
   .group 1 [.repExact Char.isDigit 4], .lit "</Year>".data,
   .opt [.anyLazy, .lit "<Month>".data, .group 2 [.star isNotLt], .lit "</Month>".data],
   .opt [.anyLazy, .lit "<Day>".data, .group 3 [.rep Char.isDigit 1], .lit "</Day>".data],
   .anyLazy, .lit "</PubDate>".data]

/-- Class `[a-zA-Z0-9._%+-]` of the email pattern. -/
def emailLocalChar (c : Char) : Bool :=
  c.isAlpha || c.isDigit || c == '.' || c == '_' || c == '%' || c == '+' || c == '-'

/-- Class `[a-zA-Z0-9.-]` of the email pattern. -/
def emailDomainChar (c : Char) : Bool :=
  c.isAlpha || c.isDigit || c == '.' || c == '-'

/-- Pattern `r'([a-zA-Z0-9._%+-]+@[a-zA-Z0-9.-]+\.[a-zA-Z]{2,})'` -/
def emailAtoms : List Atom :=
  [.group 1 [.rep emailLocalChar 1, .lit "@".data, .rep emailDomainChar 1,
             .lit ".".data, .rep Char.isAlpha 2]]

/-! Intermediate record shapes built by `_parse_xml_response`. -/

/-- One entry of the `authors` list: `{'name': ..., 'affiliation': ...}`. -/
structure RawAuthor where
  name : String
  affiliation : String
deriving DecidableEq, Repr

/-- The `pub_date` dictionary `{'year': ..., 'month': ..., 'day': ...}`. -/
structure PubDateR where
  year : String
  month : String
  day : String
deriving DecidableEq, Repr

/-- One paper dictionary produced by `_parse_xml_response`; `pub_date` is
`none` while the field still holds its initial falsy `''` value. -/
structure RawPaper where
  pmid : String
  title : String
  authors : List RawAuthor
  pub_date : Option PubDateR
  emails : List String
deriving DecidableEq, Repr

/-- The ASCII whitespace set stripped by Python `str.strip()`. -/
def pyWhitespace (c : Char) : Bool :=
  c == ' ' || c == '\t' || c == '\n' || c == '\r' || c == '\x0b' || c == '\x0c'

/-- Python `str.strip()` over ASCII: drop leading and trailing whitespace. -/
def pyStrip (s : String) : String :=
  String.mk (((s.data.dropWhile pyWhitespace).reverse.dropWhile pyWhitespace).reverse)

/-- The affiliation lookup inside one author section:
`affiliation_match.group(1).strip() if affiliation_match else ''`. -/
def authorAffiliation (sec : String) : String :=
  match reSearch affiliationAtoms sec with
  | some ca => pyStrip (String.mk (capGet ca 1))
  | none => ""

/-- Processing of one `<Author>...</Author>` section: kept only when both
the last-name and fore-name searches succeed, with display name
`f"{first_name} {last_name}".strip()`. -/
def parseOneAuthor (sec : String) : Option RawAuthor :=
  match reSearch lastNameAtoms sec, reSearch foreNameAtoms sec with
  | some cl, some cf =>
      some { name := pyStrip (String.mk (capGet cf 1) ++ " " ++ String.mk (capGet cl 1)),
             affiliation := authorAffiliation sec }
  | _, _ => none

/-- The author loop over `re.findall(r'<Author[^>]*>(.*?)</Author>', ...)`. -/
def parseAuthors (article : String) : List RawAuthor :=
  (reFindall authorAtoms article).filterMap parseOneAuthor

/-- The publication-date extraction: `re.search(date_pattern, article)`,
with `month or ''` and `day or ''` for the optional groups. -/
def parsePubDate (article : String) : Option PubDateR :=
  match reSearch dateAtoms article with
  | some caps =>
      some { year := String.mk (capGet caps 1),
             month := String.mk (capGet caps 2),
             day := String.mk (capGet caps 3) }
  | none => none

/-- The paper dictionary for the `i`-th record segment:
`pmids[i] if i < len(pmids) else ''`, `titles[i] if i < len(titles) else ''`,
plus the per-segment author/date/email extraction. -/
def mkRawPaper (pmids titles : List String) (i : Nat) (article : String) : RawPaper :=
  { pmid := pmids.getD i "",
    title := titles.getD i "",
    authors := parseAuthors article,
    pub_date := parsePubDate article,
    emails := reFindall emailAtoms article }

/-- The loop `for i, article in enumerate(articles[1:], 0)` with its
`if i >= len(pmids): break` guard. -/
def parseLoop (pmids titles : List String) : Nat → List String → List RawPaper
  | _, [] => []
  | i, article :: rest =>
      if pmids.length ≤ i then []
      else mkRawPaper pmids titles i article :: parseLoop pmids titles (i + 1) rest

/-- Model of `_parse_xml_response`: document-wide pmid/title scans, split on the
record-start marker discarding the first segment, then the indexed loop. -/
def parse_xml_response (xml : String) : List RawPaper :=
  parseLoop (reFindall pmidAtoms xml) (reFindall titleAtoms xml) 0
    ((reSplit articleSplitAtoms xml).drop 1)

/-! `_format_publication_date`. -/

/-- Python `str.isdigit` restricted to ASCII: nonempty and all digits. -/
def pyIsDigit (s : String) : Bool := !s.data.isEmpty && s.data.all Char.isDigit

/-- Python `str.capitalize` over ASCII: first character upper-cased, the
rest lower-cased. -/
def pyCapitalize (s : String) : String :=
  match s.data with
  | [] => ""
  | c :: cs => String.mk (c.toUpper :: cs.map Char.toLower)

/-- The `month_names` dictionary. -/
def month_names : List (String × String) :=
  [("1", "Jan"), ("2", "Feb"), ("3", "Mar"), ("4", "Apr"), ("5", "May"), ("6", "Jun"),
   ("7", "Jul"), ("8", "Aug"), ("9", "Sep"), ("10", "Oct"), ("11", "Nov"), ("12", "Dec")]

/-- Lookup `month_names.get(month, month)`. -/
def monthNamesGet (m : String) : String :=
  match month_names.find? (fun p => p.1 == m) with
  | some p => p.2
  | none => m

/-- Model of `_format_publication_date`; the argument is `paper_data.get('pub_date', '')`,
`none` standing for the falsy `''`. -/
def format_publication_date : Option PubDateR → String
  | none => "Date not available"
  | some pd =>
      if pd.year = "" then "Date not available"
      else
        let month :=
          if pyIsDigit pd.month then monthNamesGet pd.month
          else if pd.month ≠ "" then pyCapitalize (String.mk (pd.month.data.take 3))
          else pd.month
        if month ≠ "" ∧ pd.day ≠ "" then month ++ " " ++ pd.day ++ " " ++ pd.year
        else if month ≠ "" then month ++ " " ++ pd.year
        else pd.year

/-- Model of `_extract_corresponding_email`. -/
def extract_corresponding_email (paper : RawPaper) : String :=
  match paper.emails with
  | [] => "Email Unable to Retrieve"
  | e :: _ => e

/-! `_build_company_filtered_query`. -/

def major_companies : List String :=
  ["pfizer", "moderna", "johnson johnson", "merck", "novartis", "roche",
   "bristol myers", "abbvie", "gilead", "amgen", "biogen", "regeneron",
   "eli lilly", "gsk", "glaxosmithkline", "astrazeneca", "sanofi",
   "takeda", "bayer", "boehringer ingelheim", "vertex", "celgene"]

def company_terms : List String :=
  ["pharmaceutical", "pharmaceuticals", "pharma", "biotech", "biotechnology",
   "therapeutics", "biopharmaceutical", "inc[ad]", "ltd[ad]", "corp[ad]",
   "corporation[ad]", "company[ad]", "laboratories[ad]", "lab[ad]"]

def academic_exclusions : List String :=
  ["\"university\"[ad]", "\"college\"[ad]", "\"institute\"[ad]", "\"hospital\"[ad]",
   "\"medical center\"[ad]", "\"department\"[ad]", "\"school\"[ad]"]

/-- The value `"(" + " OR ".join(company_affiliation_parts) + ")"`. -/
def company_filter : String :=
  "(" ++ String.intercalate " OR "
    (major_companies.map (fun c => "\"" ++ c ++ "\"[ad]") ++
     company_terms.map (fun t => t ++ "[ad]")) ++ ")"

/-- The value `"NOT (" + " OR ".join(academic_exclusions) + ")"`. -/
def academic_filter : String :=
  "NOT (" ++ String.intercalate " OR " academic_exclusions ++ ")"

/-- Model of `_build_company_filtered_query`:
`f"({query}) AND {company_filter} {academic_filter}"`. -/
def build_company_filtered_query (query : String) : String :=
  "(" ++ query ++ ") AND " ++ company_filter ++ " " ++ academic_filter

/-! The two remote operations, with the network modelled as an oracle
environment and the outbound activity (rate-limit sleep, HTTP GET) as an
explicit effect trace. -/

def BASE_URL : String := "https://eutils.ncbi.nlm.nih.gov/entrez/eutils"

def SEARCH_URL : String := BASE_URL ++ "/esearch.fcgi"

def FETCH_URL : String := BASE_URL ++ "/efetch.fcgi"

/-- Observable outbound activity of `_make_request`: the rate-limit
`time.sleep` followed by `session.get(url, params=params)`. -/
inductive Effect where
  | sleep
  | get (url : String) (params : List (String × String))
deriving DecidableEq, Repr

/-- The Python exception kinds relevant to the module: `RequestException`
(network failure, timeout, or `raise_for_status` on a non-2xx reply),
the module's own `PubMedAPIError`, and any other exception. -/
inductive PyExc where
  | requestException (msg : String)
  | pubMedAPIError (msg : String)
  | otherExc (msg : String)
deriving DecidableEq, Repr

/-- Message `str(e)` of an exception: its message. -/
def excMsg : PyExc → String
  | .requestException m => m
  | .pubMedAPIError m => m
  | .otherExc m => m

/-- The JSON object under `'esearchresult'`; `idlist` is read with
`.get('idlist', [])`. -/
structure SearchResultJson where
  idlist : Option (List String)
deriving DecidableEq, Repr

/-- The parsed body of the esearch reply; `esearchresult` may be absent. -/
structure SearchJson where
  esearchresult : Option SearchResultJson
deriving DecidableEq, Repr

/-- Network oracle: what each of the two endpoints would return for this
run.  An `.error m` outcome stands for a `RequestException` with message
`m` raised inside `_make_request` (connection failure, timeout, or a
non-success HTTP status via `raise_for_status`). -/
structure Env where
  searchOutcome : Except String SearchJson
  fetchOutcome : Except String String
deriving Repr

/-- The esearch GET parameter dictionary. -/
def esearchParams (term : String) (max_results : Nat) : List (String × String) :=
  [("db", "pubmed"), ("term", term), ("retmax", toString max_results),
   ("retmode", "json"), ("sort", "relevance"), ("tool", "gpl"),
   ("email", "your.email@example.com")]

/-- The efetch GET parameter dictionary. -/
def efetchParams (pmids : List String) : List (String × String) :=
  [("db", "pubmed"), ("id", String.intercalate "," pmids), ("retmode", "xml"),
   ("tool", "gpl"), ("email", "your.email@example.com")]

/-- Model of `fetch_paper_details`: early return on an empty id list (no sleep, no
request); otherwise one rate-limited request, with `RequestException`
re-raised as `PubMedAPIError("Failed to fetch paper details: ...")`. -/
def fetch_paper_details (env : Env) (pmids : List String) :
    Except PyExc (List RawPaper) × List Effect :=
  if pmids.isEmpty then (.ok [], [])
  else
    let tr : List Effect := [.sleep, .get FETCH_URL (efetchParams pmids)]
    match env.fetchOutcome with
    | .error m => (.error (.pubMedAPIError ("Failed to fetch paper details: " ++ m)), tr)
    | .ok xml => (.ok (parse_xml_response xml), tr)

/-- The query handed to the search endpoint:
`self._build_company_filtered_query(query) if filter_companies else query`. -/
def enhancedQuery (query : String) (filter_companies : Bool) : String :=
  if filter_companies then build_company_filtered_query query else query

/-- The final output record assembled by `search_papers`. -/
structure PubMedPaper where
  pubmed_id : String
  title : String
  publication_date : String
  non_academic_authors : List String
  company_affiliations : List String
  corresponding_email : String
deriving DecidableEq, Repr

/-- Assembly of one `PubMedPaper` from a parsed paper dictionary.  The
Python `list(set(...))` for affiliations iterates a hash set in an
unspecified order; the embedding picks first-occurrence order (the spec
records the original order as undefined, and no claim depends on it). -/
def assemblePaper (paper_data : RawPaper) : PubMedPaper :=
  { pubmed_id := paper_data.pmid,
    title := paper_data.title,
    publication_date := format_publication_date paper_data.pub_date,
    non_academic_authors :=
      (paper_data.authors.filter (fun a => a.name != "")).map (fun a => a.name),
    company_affiliations :=
      ((paper_data.authors.filter (fun a => a.affiliation != "")).map
        (fun a => a.affiliation)).dedup,
    corresponding_email := extract_corresponding_email paper_data }

/-- The two `except` clauses of `search_papers`: a `RequestException`
becomes `PubMedAPIError("Failed to search PubMed: ...")`; every other
exception raised in the `try` body (including the `PubMedAPIError` the
body itself raises for a missing `'esearchresult'` field, and any
`PubMedAPIError` escaping `fetch_paper_details`) is caught by
`except Exception` and re-raised as
`PubMedAPIError("Unexpected error during PubMed search: ...")`. -/
def wrapSearchExc : PyExc → PyExc
  | .requestException m => .pubMedAPIError ("Failed to search PubMed: " ++ m)
  | e => .pubMedAPIError ("Unexpected error during PubMed search: " ++ excMsg e)

/-- Model of `search_papers`: build the (possibly company-filtered) query, issue the
rate-limited search request, check the response shape, early-return on an
empty id list, fetch details, and assemble the output records; every
exception leaves through `wrapSearchExc`. -/
def search_papers (env : Env) (query : String) (max_results : Nat)
    (filter_companies : Bool) : Except PyExc (List PubMedPaper) × List Effect :=
  let tr : List Effect :=
    [.sleep, .get SEARCH_URL (esearchParams (enhancedQuery query filter_companies) max_results)]
  match env.searchOutcome with
  | .error m => (.error (wrapSearchExc (.requestException m)), tr)
  | .ok data =>
      match data.esearchresult with
      | none =>
          (.error (wrapSearchExc
            (.pubMedAPIError "Invalid response format from PubMed search")), tr)
      | some esr =>
          let pmids := esr.idlist.getD []
          if pmids.isEmpty then (.ok [], tr)
          else
            let fr := fetch_paper_details env pmids
            match fr.1 with
            | .error e => (.error (wrapSearchExc e), tr ++ fr.2)
            | .ok paper_details =>
                (.ok (paper_details.map assemblePaper), tr ++ fr.2)

/-- Substring occurrence test, scanning every start position. -/
def containsTokB (tok : List Char) : List Char → Bool
  | [] => tok.isPrefixOf []
  | c :: rest => tok.isPrefixOf (c :: rest) || containsTokB tok rest

/-! Helper lemmas. -/

theorem isPrefixOf_append (tok : List Char) :
    ∀ s : List Char, tok.isPrefixOf s = true → ∃ r, s = tok ++ r := by
  induction tok with
  | nil => exact fun s _ => ⟨s, rfl⟩
  | cons c ct ih =>
      intro s h
      cases s with
      | nil => simp [List.isPrefixOf] at h
      | cons d ds =>
          simp only [List.isPrefixOf, Bool.and_eq_true, beq_iff_eq] at h
          obtain ⟨r, hr⟩ := ih ds h.2
          exact ⟨r, by simp [h.1, hr]⟩

theorem containsTokB_exists (tok : List Char) :
    ∀ s : List Char, containsTokB tok s = true → ∃ l r, s = l ++ tok ++ r := by
  intro s
  induction s with
  | nil =>
      intro h
      simp only [containsTokB] at h
      obtain ⟨r, hr⟩ := isPrefixOf_append tok [] h
      exact ⟨[], r, by simpa using hr⟩
  | cons c cs ih =>
      intro h
      simp only [containsTokB, Bool.or_eq_true] at h
      rcases h with h | h
      · obtain ⟨r, hr⟩ := isPrefixOf_append tok (c :: cs) h
        exact ⟨[], r, by simpa using hr⟩
      · obtain ⟨l, r, hr⟩ := ih h
        exact ⟨c :: l, r, by simp [hr]⟩

theorem parseLoop_nil_pmids (t : List String) (i : Nat) (l : List String) :
    parseLoop [] t i l = [] := by
  cases l <;> simp [parseLoop]

theorem parseLoop_length (p t : List String) :
    ∀ (l : List String) (i : Nat), (parseLoop p t i l).length = min l.length (p.length - i) := by
  intro l
  induction l with
  | nil => intro i; simp [parseLoop]
  | cons a rest ih =>
      intro i
      by_cases h : p.length ≤ i
      · simp only [parseLoop, if_pos h, List.length_nil, List.length_cons]
        omega
      · simp only [parseLoop, if_neg h, List.length_cons, ih (i + 1)]
        omega

theorem parseLoop_get? (p t : List String) :
    ∀ (l : List String) (i j : Nat), j < (parseLoop p t i l).length →
      (parseLoop p t i l).get? j = some (mkRawPaper p t (i + j) (l.getD j "")) := by
  intro l
  induction l with
  | nil => intro i j h; simp [parseLoop] at h
  | cons a rest ih =>
      intro i j h
      by_cases hp : p.length ≤ i
      · rw [parseLoop, if_pos hp] at h
        simp at h
      · rw [parseLoop, if_neg hp] at h ⊢
        cases j with
        | zero => simp
        | succ j' =>
            simp only [List.length_cons, Nat.succ_lt_succ_iff] at h
            have := ih (i + 1) j' h
            simp only [List.get?_cons_succ, this, List.getD_cons_succ]
            have hij : i + 1 + j' = i + (j' + 1) := by omega
            rw [hij]

theorem pyIsDigit_ne_empty {m : String} (h : pyIsDigit m = true) : m ≠ "" := by
  intro hm
  subst hm
  exact absurd h (by decide)

theorem pyCapitalize_take3_ne_empty {m : String} (h : m ≠ "") :
    pyCapitalize (String.mk (m.data.take 3)) ≠ "" := by
  have hd : m.data ≠ [] := by
    intro hc
    exact h (by rw [show m = String.mk m.data from rfl, hc])
  cases hdata : m.data with
  | nil => exact absurd hdata hd
  | cons c cs =>
      simp only [hdata, List.take_succ_cons, pyCapitalize]
      intro hk
      have := congrArg String.data hk
      simp at this

/-- Reduction of `_format_publication_date` on a present date with a
nonempty year. -/
theorem format_some_eq (y m d : String) (hy : y ≠ "") :
    format_publication_date (some ⟨y, m, d⟩)
      = (let month := if pyIsDigit m then monthNamesGet m
                      else if m ≠ "" then pyCapitalize (String.mk (m.data.take 3)) else m
         if month ≠ "" ∧ d ≠ "" then month ++ " " ++ d ++ " " ++ y
         else if month ≠ "" then month ++ " " ++ y
         else y) := by
  simp [format_publication_date, hy]

theorem wrapSearchExc_shape (e : PyExc) : ∃ msg, wrapSearchExc e = .pubMedAPIError msg := by
  cases e <;> exact ⟨_, rfl⟩

/-! Claim theorems. -/

/-- C6: when affiliation pre-filtering is disabled, the query builder acts
as the identity and the term submitted to the search endpoint (the `term`
entry of the GET parameters of the first outbound request) is the original
query unchanged. -/
theorem no_filter_query_identity (env : Env) (q : String) (mr : Nat) :
    enhancedQuery q false = q
  ∧ (search_papers env q mr false).2.take 2
      = [Effect.sleep, Effect.get SEARCH_URL (esearchParams q mr)] := by
  refine ⟨rfl, ?_⟩
  rcases env with ⟨so, fo⟩
  cases so with
  | error m => rfl
  | ok data =>
      rcases data with ⟨esr⟩
      cases esr with
      | none => rfl
      | some r =>
          by_cases hp : (r.idlist.getD []).isEmpty
          · simp [search_papers, enhancedQuery, hp]
          · simp [search_papers, enhancedQuery, hp]
            rcases hfr : (fetch_paper_details ⟨.ok ⟨some r⟩, fo⟩ (r.idlist.getD [])).1 with e | pd <;>
              simp [hfr, List.take]

/-- C7: the corresponding-email selector returns the first element of the
extracted email list when it is non-empty, and exactly the sentinel
string when it is empty. -/
theorem email_selector_rules (paper : RawPaper) :
    (paper.emails = [] → extract_corresponding_email paper = "Email Unable to Retrieve")
  ∧ (∀ e rest, paper.emails = e :: rest → extract_corresponding_email paper = e) := by
  constructor
  · intro h; simp [extract_corresponding_email, h]
  · intro e rest h; simp [extract_corresponding_email, h]

/-- Witness for C7 at two concrete records. -/
theorem email_selector_rules_witness :
    extract_corresponding_email ⟨"", "", [], none, []⟩ = "Email Unable to Retrieve"
  ∧ extract_corresponding_email ⟨"", "", [], none, ["a@b.co", "c@d.co"]⟩ = "a@b.co" :=
  ⟨(email_selector_rules ⟨"", "", [], none, []⟩).1 rfl,
   (email_selector_rules ⟨"", "", [], none, ["a@b.co", "c@d.co"]⟩).2 "a@b.co" ["c@d.co"] rfl⟩

/-- C8: detail-fetch with an empty identifier list returns the empty
result with an empty effect trace: no rate-limit sleep and no outbound
request occur. -/
theorem fetch_empty_no_request (env : Env) :
    fetch_paper_details env [] = (.ok [], []) := rfl

/-- C3: both remote operations turn a `RequestException` (network failure
or non-success HTTP status) and a malformed response shape (missing
`'esearchresult'` field; the fetch response has no required shape) into
the single `PubMedAPIError`; and when the search request fails, the
result does not depend on the fetch oracle at all, so the response parser
is never reached. -/
theorem remote_ops_uniform_error (env : Env) (q : String) (mr : Nat) (fc : Bool)
    (pmids : List String) (m : String) :
    (env.searchOutcome = .error m →
      (search_papers env q mr fc).1
        = .error (.pubMedAPIError ("Failed to search PubMed: " ++ m)))
  ∧ (env.searchOutcome = .ok ⟨none⟩ →
      (search_papers env q mr fc).1
        = .error (.pubMedAPIError
            ("Unexpected error during PubMed search: Invalid response format from PubMed search")))
  ∧ (pmids ≠ [] → env.fetchOutcome = .error m →
      (fetch_paper_details env pmids).1
        = .error (.pubMedAPIError ("Failed to fetch paper details: " ++ m)))
  ∧ (∀ fo fo' : Except String String,
      search_papers ⟨.error m, fo⟩ q mr fc = search_papers ⟨.error m, fo'⟩ q mr fc) := by
  refine ⟨?_, ?_, ?_, ?_⟩
  · intro h; simp [search_papers, h, wrapSearchExc]
  · intro h; simp [search_papers, h, wrapSearchExc, excMsg]
  · intro hne hf
    have hempty : pmids.isEmpty = false := by simp [List.isEmpty_iff, hne]
    simp [fetch_paper_details, hempty, hf]
  · intro fo fo'; rfl

/-- Witness for C3 at concrete environments. -/
theorem remote_ops_uniform_error_witness :
    (search_papers ⟨.error "boom", .ok ""⟩ "q" 5 true).1
        = .error (.pubMedAPIError "Failed to search PubMed: boom")
  ∧ (search_papers ⟨.ok ⟨none⟩, .ok ""⟩ "q" 5 true).1
        = .error (.pubMedAPIError
            "Unexpected error during PubMed search: Invalid response format from PubMed search")
  ∧ (fetch_paper_details ⟨.ok ⟨none⟩, .error "down"⟩ ["1"]).1
        = .error (.pubMedAPIError "Failed to fetch paper details: down")
  ∧ search_papers ⟨.error "boom", .ok "<PMID>1</PMID>"⟩ "q" 5 true
        = search_papers ⟨.error "boom", .error "down"⟩ "q" 5 true :=
  ⟨(remote_ops_uniform_error ⟨.error "boom", .ok ""⟩ "q" 5 true ["1"] "boom").1 rfl,
   (remote_ops_uniform_error ⟨.ok ⟨none⟩, .ok ""⟩ "q" 5 true ["1"] "boom").2.1 rfl,
   (remote_ops_uniform_error ⟨.ok ⟨none⟩, .error "down"⟩ "q" 5 true ["1"] "down").2.2.1
      (by decide) rfl,
   (remote_ops_uniform_error ⟨.error "boom", .ok ""⟩ "q" 5 true ["1"] "boom").2.2.2
      (.ok "<PMID>1</PMID>") (.error "down")⟩

/-- C9: `search_papers` only ever returns a success or the uniform
`PubMedAPIError` — every exception of the body is re-raised through the
two `except` clauses — and in particular the `PubMedAPIError` the body
itself raises for a missing `'esearchresult'` field leaves as the uniform
error re-wrapped by the generic `except Exception` clause. -/
theorem search_exceptions_wrapped (env : Env) (q : String) (mr : Nat) (fc : Bool)
    (fo : Except String String) :
    ((∃ papers, (search_papers env q mr fc).1 = .ok papers)
      ∨ (∃ msg, (search_papers env q mr fc).1 = .error (.pubMedAPIError msg)))
  ∧ (search_papers ⟨.ok ⟨none⟩, fo⟩ q mr fc).1
      = .error (.pubMedAPIError
          ("Unexpected error during PubMed search: Invalid response format from PubMed search")) := by
  constructor
  · rcases env with ⟨so, fo2⟩
    cases so with
    | error m => exact Or.inr ⟨_, rfl⟩
    | ok data =>
        rcases data with ⟨esr⟩
        cases esr with
        | none => exact Or.inr ⟨_, rfl⟩
        | some r =>
            by_cases hp : (r.idlist.getD []).isEmpty
            · exact Or.inl ⟨[], by simp [search_papers, hp]⟩
            · rcases hfr : (fetch_paper_details ⟨.ok ⟨some r⟩, fo2⟩ (r.idlist.getD [])).1 with e | pd
              · obtain ⟨msg, hmsg⟩ := wrapSearchExc_shape e
                exact Or.inr ⟨msg, by simp [search_papers, hp, hfr, hmsg]⟩
              · exact Or.inl ⟨pd.map assemblePaper, by simp [search_papers, hp, hfr]⟩
  · rfl

/-- C2: the date-normalization rules.  An absent (`none`, the falsy `''`)
or empty year yields exactly `"Date not available"` irrespective of
month/day; a numeric month in the fixed table is replaced by its 3-letter
abbreviation; any other numeric month passes through unchanged; a textual
month is reduced to its first 3 characters, first upper-cased and rest
lower-cased; and the output is month-day-year, month-year, or the year
alone, depending on which components are present. -/
theorem format_date_rules (y m d : String) :
    format_publication_date none = "Date not available"
  ∧ format_publication_date (some ⟨"", m, d⟩) = "Date not available"
  ∧ (y ≠ "" → ∀ p ∈ month_names,
      format_publication_date (some ⟨y, p.1, d⟩)
        = if d ≠ "" then p.2 ++ " " ++ d ++ " " ++ y else p.2 ++ " " ++ y)
  ∧ (y ≠ "" → pyIsDigit m = true → (∀ p ∈ month_names, p.1 ≠ m) →
      format_publication_date (some ⟨y, m, d⟩)
        = if d ≠ "" then m ++ " " ++ d ++ " " ++ y else m ++ " " ++ y)
  ∧ (y ≠ "" → pyIsDigit m = false → m ≠ "" →
      format_publication_date (some ⟨y, m, d⟩)
        = if d ≠ "" then pyCapitalize (String.mk (m.data.take 3)) ++ " " ++ d ++ " " ++ y
          else pyCapitalize (String.mk (m.data.take 3)) ++ " " ++ y)
  ∧ (y ≠ "" → format_publication_date (some ⟨y, "", d⟩) = y) := by
  have hall : ∀ p ∈ month_names,
      pyIsDigit p.1 = true ∧ monthNamesGet p.1 = p.2 ∧ p.2 ≠ "" := by decide
  refine ⟨rfl, by simp [format_publication_date], ?_, ?_, ?_, ?_⟩
  · intro hy p hp
    obtain ⟨h1, h2, h3⟩ := hall p hp
    rw [format_some_eq y p.1 d hy]
    by_cases hd : d = "" <;> simp [h1, h2, h3, hd]
  · intro hy hdig hnotin
    have hm : monthNamesGet m = m := by
      unfold monthNamesGet
      have hfind : month_names.find? (fun p => p.1 == m) = none := by
        rw [List.find?_eq_none]
        intro p hp
        simp [hnotin p hp]
      rw [hfind]
    have hmne : m ≠ "" := pyIsDigit_ne_empty hdig
    rw [format_some_eq y m d hy]
    by_cases hd : d = "" <;> simp [hdig, hm, hmne, hd]
  · intro hy hdig hne
    have h3 := pyCapitalize_take3_ne_empty hne
    rw [format_some_eq y m d hy]
    by_cases hd : d = "" <;> simp [hdig, hne, h3, hd]
  · intro hy
    rw [format_some_eq y "" d hy]
    have : pyIsDigit "" = false := by decide
    simp [this]

/-- Witness for C2, including the spec example
year 2023 / month "1" / day "15" yielding "Jan 15 2023". -/
theorem format_date_rules_witness :
    format_publication_date (some ⟨"2023", "1", "15"⟩) = "Jan 15 2023"
  ∧ format_publication_date (some ⟨"", "1", "15"⟩) = "Date not available"
  ∧ format_publication_date (some ⟨"2023", "13", "15"⟩) = "13 15 2023"
  ∧ format_publication_date (some ⟨"2023", "JANUARY", ""⟩) = "Jan 2023"
  ∧ format_publication_date (some ⟨"2023", "", "15"⟩) = "2023" :=
  ⟨((format_date_rules "2023" "1" "15").2.2.1 (by decide) ("1", "Jan") (by decide)).trans
      (by decide),
   (format_date_rules "ignored" "1" "15").2.1,
   ((format_date_rules "2023" "13" "15").2.2.2.1 (by decide) (by decide) (by decide)).trans
      (by decide),
   ((format_date_rules "2023" "JANUARY" "").2.2.2.2.1 (by decide) (by decide) (by decide)).trans
      (by decide),
   (format_date_rules "2023" "" "15").2.2.2.2.2 (by decide)⟩

/-- The built query decomposes into the parenthesized original followed by
the constant filter tail. -/
theorem build_query_data (q : String) :
    (build_company_filtered_query q).data
      = "(".data ++ q.data ++ ")".data
          ++ (" AND " ++ company_filter ++ " " ++ academic_filter).data := by
  have hsplit : ((") AND " : String)).data = ((")" : String)).data ++ ((" AND " : String)).data :=
    rfl
  simp [build_company_filtered_query, String.data_append, hsplit, List.append_assoc]

/-- C5: with pre-filtering enabled, the built query starts with the
original query parenthesized, and contains the substring "AND (", at
least one affiliation-tagged "[ad]" clause, and a "NOT (" academic
exclusion clause. -/
theorem company_query_shape (q : String) :
    (∃ r : List Char,
        (build_company_filtered_query q).data = "(".data ++ q.data ++ ")".data ++ r)
  ∧ (∃ l r : List Char,
        (build_company_filtered_query q).data = l ++ "AND (".data ++ r)
  ∧ (∃ l r : List Char,
        (build_company_filtered_query q).data = l ++ "[ad]".data ++ r)
  ∧ (∃ l r : List Char,
        (build_company_filtered_query q).data = l ++ "NOT (".data ++ r) := by
  have hd := build_query_data q
  refine ⟨⟨_, hd⟩, ?_, ?_, ?_⟩
  · obtain ⟨l, r, hr⟩ := containsTokB_exists "AND (".data
      (" AND " ++ company_filter ++ " " ++ academic_filter).data (by decide)
    exact ⟨"(".data ++ q.data ++ ")".data ++ l, r,
      by rw [hd, hr]; simp [List.append_assoc]⟩
  · obtain ⟨l, r, hr⟩ := containsTokB_exists "[ad]".data
      (" AND " ++ company_filter ++ " " ++ academic_filter).data (by decide)
    exact ⟨"(".data ++ q.data ++ ")".data ++ l, r,
      by rw [hd, hr]; simp [List.append_assoc]⟩
  · obtain ⟨l, r, hr⟩ := containsTokB_exists "NOT (".data
      (" AND " ++ company_filter ++ " " ++ academic_filter).data (by decide)
    exact ⟨"(".data ++ q.data ++ ")".data ++ l, r,
      by rw [hd, hr]; simp [List.append_assoc]⟩

/-- C4: the per-record author loop examines every individually delimited
author block; a block whose last-name or fore-name search fails is
dropped; a kept author's display name is the given name and last name
joined by a single space and trimmed; and an absent
affiliation-info/affiliation field yields the empty-string affiliation
rather than dropping the author. -/
theorem author_block_rules (sec article : String) :
    ((reSearch lastNameAtoms sec = none ∨ reSearch foreNameAtoms sec = none) →
        parseOneAuthor sec = none)
  ∧ (∀ cl cf, reSearch lastNameAtoms sec = some cl → reSearch foreNameAtoms sec = some cf →
        parseOneAuthor sec
          = some { name := pyStrip (String.mk (capGet cf 1) ++ " " ++ String.mk (capGet cl 1)),
                   affiliation := authorAffiliation sec })
  ∧ (reSearch affiliationAtoms sec = none → authorAffiliation sec = "")
  ∧ parseAuthors article = (reFindall authorAtoms article).filterMap parseOneAuthor := by
  refine ⟨?_, ?_, ?_, rfl⟩
  · intro h
    rcases hL : reSearch lastNameAtoms sec with _ | cl <;>
      rcases hF : reSearch foreNameAtoms sec with _ | cf <;>
        simp [parseOneAuthor, hL, hF]
    rcases h with h | h
    · exact absurd (hL.symm.trans h) (by simp)
    · exact absurd (hF.symm.trans h) (by simp)
  · intro cl cf h1 h2
    simp [parseOneAuthor, h1, h2]
  · intro h
    simp [authorAffiliation, h]

/-- Witness for C4: a block with both names and no affiliation is kept
with the joined trimmed name and an empty affiliation; a block with a
missing fore-name is dropped. -/
theorem author_block_rules_witness :
    parseOneAuthor "<LastName>Doe</LastName>" = none
  ∧ parseOneAuthor "<LastName>Doe</LastName><ForeName>John</ForeName>"
      = some { name := "John Doe", affiliation := "" } := by
  constructor
  · exact (author_block_rules "<LastName>Doe</LastName>" "").1 (Or.inr (by decide))
  · have h2 := (author_block_rules "<LastName>Doe</LastName><ForeName>John</ForeName>" "").2.1
      [(1, "Doe".data)] [(1, "John".data)] (by decide) (by decide)
    have h3 := (author_block_rules "<LastName>Doe</LastName><ForeName>John</ForeName>" "").2.2.1
      (by decide)
    rw [h2, h3]
    decide

/-- C1: the response parser splits the document on record-start markers,
discards the first segment, pairs the i-th remaining segment with the
i-th document-wide identifier and i-th document-wide title by position,
and returns exactly min(number of segments, number of identifiers)
records. -/
theorem parse_positional_alignment (xml : String) :
    (parse_xml_response xml).length
      = min ((reSplit articleSplitAtoms xml).drop 1).length (reFindall pmidAtoms xml).length
  ∧ ∀ i, i < (parse_xml_response xml).length →
      ((parse_xml_response xml).get? i).map RawPaper.pmid
          = some ((reFindall pmidAtoms xml).getD i "")
      ∧ ((parse_xml_response xml).get? i).map RawPaper.title
          = some ((reFindall titleAtoms xml).getD i "") := by
  constructor
  · unfold parse_xml_response
    rw [parseLoop_length]
    omega
  · intro i hi
    unfold parse_xml_response at hi ⊢
    rw [parseLoop_get? _ _ _ _ _ hi]
    simp [mkRawPaper]

/-- Witness for C1 on a one-record document. -/
theorem parse_positional_alignment_witness :
    0 < (parse_xml_response "<PubmedArticle><PMID>7</PMID><ArticleTitle>T</ArticleTitle></PubmedArticle>").length
  ∧ ((parse_xml_response "<PubmedArticle><PMID>7</PMID><ArticleTitle>T</ArticleTitle></PubmedArticle>").get? 0).map RawPaper.pmid
      = some ((reFindall pmidAtoms "<PubmedArticle><PMID>7</PMID><ArticleTitle>T</ArticleTitle></PubmedArticle>").getD 0 "")
  ∧ ((parse_xml_response "<PubmedArticle><PMID>7</PMID><ArticleTitle>T</ArticleTitle></PubmedArticle>").get? 0).map RawPaper.title
      = some ((reFindall titleAtoms "<PubmedArticle><PMID>7</PMID><ArticleTitle>T</ArticleTitle></PubmedArticle>").getD 0 "") :=
  ⟨by decide,
   ((parse_positional_alignment
      "<PubmedArticle><PMID>7</PMID><ArticleTitle>T</ArticleTitle></PubmedArticle>").2 0
      (by decide)).1,
   ((parse_positional_alignment
      "<PubmedArticle><PMID>7</PMID><ArticleTitle>T</ArticleTitle></PubmedArticle>").2 0
      (by decide)).2⟩

/-- C10: a document with no record-start marker (the leftmost search for
the marker fails, as it does on the empty string), or in which the
document-wide identifier scan finds nothing, parses to the empty record
list. -/
theorem parse_empty_on_missing (xml : String) :
    (findFirstAux articleSplitAtoms xml.data = none → parse_xml_response xml = [])
  ∧ (reFindall pmidAtoms xml = [] → parse_xml_response xml = []) := by
  constructor
  · intro h
    unfold parse_xml_response
    have hs : (reSplit articleSplitAtoms xml).drop 1 = [] := by
      unfold reSplit
      have hone : reSplitAux articleSplitAtoms (xml.data.length + 1) xml.data = [xml.data] := by
        simp only [reSplitAux]
        rw [h]
      rw [hone]
      rfl
    rw [hs]
    rfl
  · intro h
    unfold parse_xml_response
    rw [h]
    exact parseLoop_nil_pmids _ _ _

/-- Witness for C10: the empty document, and a document with a record
marker but no identifier tag. -/
theorem parse_empty_on_missing_witness :
    parse_xml_response "" = []
  ∧ parse_xml_response "<PubmedArticle></PubmedArticle>" = [] :=
  ⟨(parse_empty_on_missing "").1 (by decide),
   (parse_empty_on_missing "<PubmedArticle></PubmedArticle>").2 (by decide)⟩

end GPL
